import Mathlib

/-!
Verification of the protocol probe and classification engine:
a shallow embedding of the DNS test server, the multi-port analyzer
and the protocol tester client, with theorems about packet synthesis,
probe classification, echo responses, statistics aggregation and
TCP DNS framing.

Bytes are modelled as natural numbers (each < 256 in the wire data);
socket reads from a stream are modelled as `List.take` over the byte
sequence the peer made available before closing.
-/

/-- ASCII/UTF-8 encoding of a label string as a byte list
(all labels in the programs are ASCII). -/
def ascii (s : String) : List Nat := s.toList.map Char.toNat

/-! ## DNS test server (dns_test_server.py) -/

/-- The fixed synthesized answer record from `handle_dns_tcp` /
`dns_udp_server`: name = compression pointer 0xC00C, type A, class IN,
TTL 300, RDLENGTH 4, RDATA 172.217.14.206. -/
def dns_answer : List Nat :=
  [0xc0, 0x0c, 0x00, 0x01, 0x00, 0x01, 0x00, 0x00, 0x01, 0x2c,
   0x00, 0x04, 0xac, 0xd9, 0x0e, 0xce]

/-- DNS response synthesis as performed identically in `handle_dns_tcp`
(lines 75-95) and `dns_udp_server` (lines 119-137):
transaction id = query[:2], flags 0x8180, qdcount 1, ancount 1,
ns/ar 0, then question section query[12:] verbatim, then the fixed
answer.  Python slicing is total: no length check is performed. -/
def build_dns_response (query : List Nat) : List Nat :=
  query.take 2 ++ [0x81, 0x80, 0x00, 0x01, 0x00, 0x01, 0x00, 0x00, 0x00, 0x00]
    ++ query.drop 12 ++ dns_answer

/-- `struct.pack('!H', n) + payload`: the 2-byte big-endian TCP DNS
length prefix followed by the payload, as built inline in
`handle_dns_tcp` line 98 and in the clients. -/
def wrap_tcp_length16 (payload : List Nat) : List Nat :=
  [payload.length / 256 % 256, payload.length % 256] ++ payload

/-- The length-prefixed read of `handle_dns_tcp` lines 58-69: read a
2-byte prefix (fewer than 2 available bytes aborts with no response),
unpack big-endian, then `conn.recv(query_length)` which returns at most
`query_length` bytes - whatever the stream holds, with no short-read
check. -/
def read_tcp_length_prefixed (stream : List Nat) : Option (List Nat) :=
  match stream with
  | a :: b :: rest => some (rest.take (256 * a + b))
  | _ => none

/-- The whole of `handle_dns_tcp` (lines 53-104) as a function from the
bytes the client stream holds to the reply sent back, `none` when the
length prefix could not be read and the connection is closed without a
response. -/
def handle_dns_tcp (stream : List Nat) : Option (List Nat) :=
  match read_tcp_length_prefixed stream with
  | none => none
  | some query => some (wrap_tcp_length16 (build_dns_response query))

/-- Reply of `dns_udp_server` (lines 112-140) to one datagram: the same
response synthesis, sent without framing.  A response is sent for every
datagram, with no length validation. -/
def dns_udp_reply (data : List Nat) : List Nat :=
  build_dns_response data

/-- The literal TCP DNS query of the end-to-end scenario
(`test_dns_blocking.py` lines 46-58): transaction id AABB, standard
query, one question, QNAME google.com, QTYPE A, QCLASS IN. -/
def dnsQueryC1 : List Nat :=
  [0xaa, 0xbb, 0x01, 0x00, 0x00, 0x01, 0x00, 0x00, 0x00, 0x00, 0x00, 0x00,
   0x06, 0x67, 0x6f, 0x6f, 0x67, 0x6c, 0x65, 0x03, 0x63, 0x6f, 0x6d, 0x00,
   0x00, 0x01, 0x00, 0x01]

/-! ## Protocol tester client (protocol_tester_client.py): probe model

`test_protocol` performs socket operations whose outcomes are decided by
the network.  Each operation (TCP connect, send, recv) is modelled by an
`Except` value: `ok` for normal completion, or one of the Python
exception classes the handlers distinguish.  `elapsedMs` is the value
`int((time.time() - start) * 1000)` would take at line 53. -/

/-- The exception classes `test_protocol` distinguishes:
`ConnectionRefusedError`, `socket.timeout`, any other `Exception`
(carrying its message string). -/
inductive PyExc where
  | connectionRefused
  | socketTimeout
  | other (msg : String)
deriving DecidableEq, Repr

/-- Outcomes the network hands each socket step of one probe. -/
structure NetSteps where
  connectResult : Except PyExc Unit
  sendResult : Except PyExc Unit
  recvResult : Except PyExc (List Nat)
  elapsedMs : Nat
deriving Repr

/-- Probe status values assigned by `test_protocol`
('UNKNOWN', 'SUCCESS', 'NO_RESPONSE', 'REFUSED', 'TIMEOUT',
'ERROR:<truncated message>'). -/
inductive ProbeStatus where
  | unknown
  | success
  | no_response
  | refused
  | timeout
  | error (msg : String)
deriving DecidableEq, Repr

/-- The result dictionary built by `test_protocol` (lines 15-23). -/
structure ProbeResult where
  port : Nat
  proto : String
  packetType : String
  sent_bytes : Nat
  status : ProbeStatus
  recv_bytes : Nat
  time_ms : Nat
deriving DecidableEq, Repr

/-- `test_protocol` (lines 13-62).  The try body runs connect (TCP
only), send, then recv; an inner handler turns a recv `socket.timeout`
into NO_RESPONSE; `time_ms` is assigned only when the try body finishes;
the outer handlers map `ConnectionRefusedError` to REFUSED,
`socket.timeout` to TIMEOUT, and any other exception to
ERROR:<message truncated to 30 characters>, leaving `time_ms` at its
initial 0. -/
def test_protocol (port : Nat) (proto packet_type : String)
    (data : List Nat) (net : NetSteps) : ProbeResult :=
  let result0 : ProbeResult :=
    { port := port, proto := proto, packetType := packet_type,
      sent_bytes := data.length, status := ProbeStatus.unknown,
      recv_bytes := 0, time_ms := 0 }
  let afterSend : Except PyExc ProbeResult :=
    match net.sendResult with
    | Except.error e => Except.error e
    | Except.ok _ =>
      match net.recvResult with
      | Except.ok resp =>
          Except.ok { result0 with recv_bytes := resp.length,
                                   status := ProbeStatus.success,
                                   time_ms := net.elapsedMs }
      | Except.error PyExc.socketTimeout =>
          Except.ok { result0 with status := ProbeStatus.no_response,
                                   time_ms := net.elapsedMs }
      | Except.error e => Except.error e
  let body : Except PyExc ProbeResult :=
    if proto = "tcp" then
      match net.connectResult with
      | Except.error e => Except.error e
      | Except.ok _ => afterSend
    else
      afterSend
  match body with
  | Except.ok r => r
  | Except.error PyExc.connectionRefused =>
      { result0 with status := ProbeStatus.refused }
  | Except.error PyExc.socketTimeout =>
      { result0 with status := ProbeStatus.timeout }
  | Except.error (PyExc.other msg) =>
      { result0 with status := ProbeStatus.error (msg.take 30) }

/-- A probe run whose TCP connect is refused. -/
def netRefusedExample : NetSteps :=
  { connectResult := Except.error PyExc.connectionRefused,
    sendResult := Except.ok (), recvResult := Except.ok [],
    elapsedMs := 7 }

/-- A probe run that connects, sends, and then sees the peer close the
connection: recv returns zero bytes before the timeout. -/
def netZeroRecvExample : NetSteps :=
  { connectResult := Except.ok (), sendResult := Except.ok (),
    recvResult := Except.ok [], elapsedMs := 12 }

/-! ## Multi-port analyzer (multiport_analyzer.py) -/

/-- One entry of the `connection_log` as appended by `log_connection`
(lines 18-33).  The wall-clock `timestamp` string is omitted from the
model; no claim depends on it. -/
structure ConnectionEvent where
  port : Nat
  protocol : String
  client : String
  data_len : Nat
  data_hex : String
  status : String
deriving DecidableEq, Repr

/-- The grouping key `f"{entry['protocol']}:{entry['port']}"` of
`dump_stats` line 115. -/
def statKey (e : ConnectionEvent) : String :=
  e.protocol ++ ":" ++ toString e.port

/-- One value of the stats dictionary of `dump_stats` lines 113-120. -/
structure StatsBucket where
  count : Nat
  bytes : Nat
  clients : Finset String
deriving DecidableEq

/-- One iteration of the `dump_stats` grouping loop (lines 114-120):
insert a fresh bucket for an unseen key, then add the event's count,
byte length and client to its key's bucket.  The association list keeps
the dictionary's insertion order. -/
def updateAssoc (stats : List (String × StatsBucket)) (k : String)
    (e : ConnectionEvent) : List (String × StatsBucket) :=
  match stats with
  | [] => [(k, { count := 1, bytes := e.data_len, clients := {e.client} })]
  | (k2, b) :: rest =>
      if k2 = k then
        (k2, { count := b.count + 1, bytes := b.bytes + e.data_len,
               clients := insert e.client b.clients }) :: rest
      else (k2, b) :: updateAssoc rest k e

/-- The stats mapping `dump_stats` recomputes from the whole
`connection_log` at report time (lines 113-120). -/
def compute_stats (log : List ConnectionEvent) : List (String × StatsBucket) :=
  log.foldl (fun stats e => updateAssoc stats (statKey e) e) []

/-- Dictionary access `stats[key]` on the computed stats. -/
def lookupStats : List (String × StatsBucket) → String → Option StatsBucket
  | [], _ => none
  | (k, b) :: rest, key => if k = key then some b else lookupStats rest key

/-- Direct recomputation of one bucket from the events carrying its key:
the reference the aggregated bucket is compared against. -/
def bucket_of_events (l : List ConnectionEvent) : StatsBucket :=
  { count := l.length,
    bytes := (l.map (fun e => e.data_len)).sum,
    clients := (l.map (fun e => e.client)).toFinset }

/-- `handle_tcp` of the multi-port analyzer (lines 53-76): when the read
returned bytes, the response `ECHO:<label>:` ++ data is sent; an empty
read sends nothing. -/
def handle_tcp_response (protocol_name : String) (data : List Nat) :
    Option (List Nat) :=
  if data = [] then none
  else some (ascii ("ECHO:" ++ protocol_name ++ ":") ++ data)

/-- `udp_listener` of the multi-port analyzer (lines 85-96): the same
echo contract per datagram, sent with `sendto`. -/
def udp_echo_response (protocol_name : String) (data : List Nat) :
    Option (List Nat) :=
  if data = [] then none
  else some (ascii ("ECHO:" ++ protocol_name ++ ":") ++ data)

/-- `handle_tcp_client` of the DNS test server (lines 12-27): it sends
back `b"ECHO:" + data` - no label and no second colon - for every
connection, including an empty read. -/
def handle_tcp_client_response (data : List Nat) : List Nat :=
  ascii "ECHO:" ++ data

/-! ## Classifier (protocol_tester_client.py run_tests, lines 175-200) -/

/-- The DNS-family if/elif chain of `run_tests` (lines 179-184), given
whether the DNS TCP, DNS UDP and DNS TCP random probes were SUCCESS.
The chain has no else branch: when no rule matches, nothing is
printed. -/
def dns_analysis (dns_tcp_works dns_udp_works dns_tcp_rand : Bool) :
    List String :=
  if dns_udp_works && !dns_tcp_works then
    ["✓ DNS UDP works, TCP DNS fails → Iran blocks TCP on port 53"]
  else if dns_tcp_works && !dns_tcp_rand then
    ["✓ Valid DNS works, random fails → DPI validates DNS packet structure"]
  else if dns_tcp_works && dns_tcp_rand then
    ["✓ Both valid and random DNS work → Port 53 TCP is open"]
  else []

/-- The SSH-family if/elif chain of `run_tests` (lines 189-192); again
no else branch. -/
def ssh_analysis (ssh_works ssh_rand : Bool) : List String :=
  if ssh_works && !ssh_rand then
    ["✓ SSH banner works, random fails → DPI validates SSH protocol"]
  else if ssh_works && ssh_rand then
    ["✓ Both SSH banner and random work → Port 22 TCP is open"]
  else []

/-- The HTTPS-family if/elif chain of `run_tests` (lines 197-200); again
no else branch. -/
def https_analysis (https_works https_rand : Bool) : List String :=
  if https_works && !https_rand then
    ["✓ TLS hello works, random fails → DPI validates TLS handshake"]
  else if https_works && https_rand then
    ["✓ Both TLS and random work → Port 443 TCP is open"]
  else []

/-- The analysis section of `run_tests` (lines 175-200) over the ordered
statuses of the eleven probes: the family conditions read the statuses
of tests 0, 1, 2 (DNS), 4, 5 (SSH) and 7, 8 (HTTPS), comparing each to
SUCCESS, and the emitted lines are those of the three family chains in
order. -/
def run_tests_analysis (statuses : List ProbeStatus) : List String :=
  let ok := fun i =>
    decide (statuses.getD i ProbeStatus.unknown = ProbeStatus.success)
  dns_analysis (ok 0) (ok 1) (ok 2)
    ++ ssh_analysis (ok 4) (ok 5)
    ++ https_analysis (ok 7) (ok 8)

/-! ## TLS ClientHello synthesis (protocol_tester_client.py) -/

/-- `make_https_clienthello` (lines 89-108), with the 32 `os.urandom`
bytes as a parameter.  The record length field is the fixed constant
0x0040 and the handshake length field the fixed constant 0x00003C,
independent of the actual encoded sizes; the handshake is truncated to
at most 64 bytes. -/
def make_https_clienthello (randomBytes : List Nat) : List Nat :=
  let content_type := [0x16]
  let version := [0x03, 0x01]
  let record_length := [0x00, 0x40]
  let handshake_type := [0x01]
  let hs_length := [0x00, 0x00, 0x3c]
  let client_version := [0x03, 0x03]
  let session_id_len := [0x00]
  let cipher_suites_len := [0x00, 0x02]
  let cipher_suites := [0x00, 0x2f]
  let compression_methods_len := [0x01]
  let compression_methods := [0x00]
  let handshake := handshake_type ++ hs_length ++ client_version ++ randomBytes
    ++ session_id_len ++ cipher_suites_len ++ cipher_suites
    ++ compression_methods_len ++ compression_methods
  content_type ++ version ++ record_length ++ handshake.take 64

/-- A two-event log for the key TCP-TEST:5353, both events from the
same client. -/
def statsLogExample : List ConnectionEvent :=
  [ { port := 5353, protocol := "TCP-TEST", client := "addr1",
      data_len := 5, data_hex := "", status := "RECEIVED" },
    { port := 5353, protocol := "TCP-TEST", client := "addr1",
      data_len := 8, data_hex := "", status := "RECEIVED" } ]

/-- The bucket the two-event example log aggregates to. -/
def statsBucketExample : StatsBucket :=
  { count := 2, bytes := 13, clients := {"addr1"} }

/-- Claim C1: sending the TCP-framed literal query AABB... to the TCP
DNS responder yields a reply that is a 2-byte big-endian length prefix
followed by a response whose first two bytes are AABB, whose final 16
bytes are the fixed answer record C00C 0001 0001 0000012C 0004 ACD90ECE,
and whose bytes from offset 12 are the query's question section verbatim
followed by that answer. -/
theorem C1_end_to_end :
    handle_dns_tcp (wrap_tcp_length16 dnsQueryC1)
      = some (wrap_tcp_length16 (build_dns_response dnsQueryC1)) ∧
    (build_dns_response dnsQueryC1).take 2 = [0xaa, 0xbb] ∧
    (build_dns_response dnsQueryC1).drop ((build_dns_response dnsQueryC1).length - 16)
      = [0xc0, 0x0c, 0x00, 0x01, 0x00, 0x01, 0x00, 0x00, 0x01, 0x2c,
         0x00, 0x04, 0xac, 0xd9, 0x0e, 0xce] ∧
    (build_dns_response dnsQueryC1).drop 12 = dnsQueryC1.drop 12 ++ dns_answer := by
  refine ⟨by decide, by decide, by decide, by decide⟩

/-- Claim C2: probe outcome classification, in the priority order of the
exception handlers: a refused connection yields REFUSED; a timeout
during connect yields TIMEOUT and a timeout during send yields TIMEOUT,
while a timeout during receive after a successful send yields
NO_RESPONSE; any receive that returns bytes yields SUCCESS regardless of
content; any other transport exception yields ERROR carrying the message
truncated to 30 characters. -/
theorem C2_classification (port : Nat) (proto packet_type : String)
    (data : List Nat) (net : NetSteps) :
    (proto = "tcp" → net.connectResult = Except.error PyExc.connectionRefused →
      (test_protocol port proto packet_type data net).status = ProbeStatus.refused) ∧
    (proto = "tcp" → net.connectResult = Except.error PyExc.socketTimeout →
      (test_protocol port proto packet_type data net).status = ProbeStatus.timeout) ∧
    ((proto = "tcp" → net.connectResult = Except.ok ()) →
      net.sendResult = Except.error PyExc.socketTimeout →
      (test_protocol port proto packet_type data net).status = ProbeStatus.timeout) ∧
    ((proto = "tcp" → net.connectResult = Except.ok ()) →
      net.sendResult = Except.ok () →
      net.recvResult = Except.error PyExc.socketTimeout →
      (test_protocol port proto packet_type data net).status = ProbeStatus.no_response) ∧
    (∀ resp, (proto = "tcp" → net.connectResult = Except.ok ()) →
      net.sendResult = Except.ok () →
      net.recvResult = Except.ok resp →
      (test_protocol port proto packet_type data net).status = ProbeStatus.success ∧
      (test_protocol port proto packet_type data net).recv_bytes = resp.length) ∧
    (∀ msg, proto = "tcp" →
      net.connectResult = Except.error (PyExc.other msg) →
      (test_protocol port proto packet_type data net).status
        = ProbeStatus.error (msg.take 30)) ∧
    (∀ msg, (proto = "tcp" → net.connectResult = Except.ok ()) →
      net.sendResult = Except.ok () →
      net.recvResult = Except.error (PyExc.other msg) →
      (test_protocol port proto packet_type data net).status
        = ProbeStatus.error (msg.take 30)) := by
  by_cases hp : proto = "tcp" <;>
    refine ⟨?_, ?_, ?_, ?_, ?_, ?_, ?_⟩ <;>
    simp only [hp] <;>
    intros <;>
    simp_all [test_protocol]

theorem C2_classification_witness :
    (test_protocol 53 "tcp" "DNS_QUERY" [0, 1, 2] netRefusedExample).status
      = ProbeStatus.refused :=
  (C2_classification 53 "tcp" "DNS_QUERY" [0, 1, 2] netRefusedExample).1 rfl rfl

/-- Claim C9: a TCP probe that connects, sends, and whose recv returns
zero bytes (the peer closed the connection without sending data before
the timeout) is classified SUCCESS with recv_bytes = 0: a zero-length
receive counts as a response, not as NO_RESPONSE. -/
theorem C9_zero_length_recv (port : Nat) (packet_type : String)
    (data : List Nat) (net : NetSteps)
    (hc : net.connectResult = Except.ok ())
    (hs : net.sendResult = Except.ok ())
    (hr : net.recvResult = Except.ok []) :
    (test_protocol port "tcp" packet_type data net).status = ProbeStatus.success ∧
    (test_protocol port "tcp" packet_type data net).recv_bytes = 0 := by
  simp [test_protocol, hc, hs, hr]

theorem C9_zero_length_recv_witness :
    (test_protocol 443 "tcp" "TLS_HELLO" [0, 1] netZeroRecvExample).status
        = ProbeStatus.success ∧
    (test_protocol 443 "tcp" "TLS_HELLO" [0, 1] netZeroRecvExample).recv_bytes = 0 :=
  C9_zero_length_recv 443 "TLS_HELLO" [0, 1] netZeroRecvExample rfl rfl rfl

/-- Claim C10: `time_ms` is assigned from the clock only when the try
body completes, i.e. on the SUCCESS and NO_RESPONSE paths; on the
REFUSED, TIMEOUT and ERROR paths the result keeps the initial
time_ms = 0 no matter how much time elapsed. -/
theorem C10_time_ms_zero_on_failure (port : Nat) (proto packet_type : String)
    (data : List Nat) (net : NetSteps) :
    ((test_protocol port proto packet_type data net).status = ProbeStatus.refused ∨
     (test_protocol port proto packet_type data net).status = ProbeStatus.timeout ∨
     (∃ msg, (test_protocol port proto packet_type data net).status
        = ProbeStatus.error msg) →
      (test_protocol port proto packet_type data net).time_ms = 0) ∧
    ((test_protocol port proto packet_type data net).status = ProbeStatus.success ∨
     (test_protocol port proto packet_type data net).status = ProbeStatus.no_response →
      (test_protocol port proto packet_type data net).time_ms = net.elapsedMs) := by
  obtain ⟨cr, sr, rr, el⟩ := net
  by_cases hp : proto = "tcp" <;>
    rcases cr with e | u <;> rcases sr with e2 | u2 <;> rcases rr with e3 | resp <;>
    (try cases e) <;> (try cases e2) <;> (try cases e3) <;>
    constructor <;> intro h <;>
    simp_all [test_protocol]

theorem C10_time_ms_zero_on_failure_witness :
    (test_protocol 53 "tcp" "DNS_QUERY" [0, 1, 2] netRefusedExample).time_ms = 0 :=
  (C10_time_ms_zero_on_failure 53 "tcp" "DNS_QUERY" [0, 1, 2] netRefusedExample).1
    (Or.inl rfl)

/-- Claim C3 counterexample: a TCP query of one byte (length 1 < 12)
does not make the responder fail - `handle_dns_tcp` still sends a reply,
and the synthesized response is nonempty; the UDP responder likewise
replies to a one-byte datagram.  No MalformedPacketError exists in the
code. -/
theorem C3_counterexample :
    handle_dns_tcp [0x00, 0x01, 0xaa]
      = some (wrap_tcp_length16 (build_dns_response [0xaa])) ∧
    build_dns_response [0xaa] ≠ [] ∧
    (dns_udp_reply [0xaa]).length = 27 := by
  refine ⟨by decide, by decide, by decide⟩

/-- Claim C3 amended: for every input shorter than 12 bytes, DNS
response synthesis does not fail: it still produces a nonempty response
whose question section is empty (the transaction id being whatever
prefix of at most 2 bytes the input has), and the same bytes are sent by
the UDP responder. -/
theorem C3_amended (q : List Nat) (h : q.length < 12) :
    build_dns_response q
      = q.take 2 ++ [0x81, 0x80, 0x00, 0x01, 0x00, 0x01, 0x00, 0x00, 0x00, 0x00]
          ++ dns_answer ∧
    build_dns_response q ≠ [] ∧
    dns_udp_reply q = build_dns_response q := by
  have hd : q.drop 12 = [] := List.drop_eq_nil_of_le (by omega)
  refine ⟨by simp [build_dns_response, hd], ?_, rfl⟩
  simp [build_dns_response]

theorem C3_amended_witness :
    build_dns_response [0xde]
      = [0xde].take 2 ++ [0x81, 0x80, 0x00, 0x01, 0x00, 0x01, 0x00, 0x00, 0x00, 0x00]
          ++ dns_answer ∧
    build_dns_response [0xde] ≠ [] ∧
    dns_udp_reply [0xde] = build_dns_response [0xde] :=
  C3_amended [0xde] (by decide)

/-- Claim C4 counterexample: a stream declaring 5 payload bytes of which
only 2 arrived before the peer closed makes the reader return the short
2-byte result, not fail: there is no FramingError short-read check. -/
theorem C4_counterexample :
    read_tcp_length_prefixed [0x00, 0x05, 0x01, 0x02] = some [0x01, 0x02] ∧
    ([0x01, 0x02] : List Nat).length < 5 := by
  refine ⟨by decide, by decide⟩

/-- Claim C4 amended: TCP DNS framing round-trips - for every payload
representable in the 2-byte big-endian prefix, reading a length-prefixed
message from a stream holding exactly the framed payload returns the
payload; but a payload shorter than declared is returned short rather
than rejected, and only a length prefix of fewer than 2 bytes yields no
read at all. -/
theorem C4_amended (p : List Nat) (h : p.length < 65536) :
    read_tcp_length_prefixed (wrap_tcp_length16 p) = some p ∧
    (∀ s : List Nat, s.length < 2 → read_tcp_length_prefixed s = none) := by
  constructor
  · show some (p.take (256 * (p.length / 256 % 256) + p.length % 256)) = some p
    have h2 : p.length / 256 < 256 := Nat.div_lt_of_lt_mul (by omega)
    rw [Nat.mod_eq_of_lt h2, Nat.div_add_mod, List.take_length]
  · intro s hs
    rcases s with _ | ⟨a, _ | ⟨b, t⟩⟩
    · rfl
    · rfl
    · simp only [List.length_cons] at hs
      omega

theorem C4_amended_witness :
    read_tcp_length_prefixed (wrap_tcp_length16 [0x01, 0x02, 0x03])
      = some [0x01, 0x02, 0x03] :=
  (C4_amended [0x01, 0x02, 0x03] (by decide)).1

/-- Claim C6 counterexample: the plain TCP echo listener of the DNS test
server (label TCP-ECHO:5353) answers a one-byte request with
`ECHO:` ++ data, not with `ECHO:<label>:` ++ data. -/
theorem C6_counterexample :
    handle_tcp_client_response [0x41]
        ≠ ascii ("ECHO:" ++ "TCP-ECHO:5353" ++ ":") ++ [0x41] ∧
    handle_tcp_client_response [0x41] = ascii "ECHO:" ++ [0x41] := by
  refine ⟨by decide, by decide⟩

/-- Claim C6 amended: the multi-port analyzer's TCP and UDP listeners
answer every non-empty request with `ECHO:<label>:` ++ data unchanged,
while the DNS test server's plain TCP echo listener answers with
`ECHO:` ++ data, without the label and second colon. -/
theorem C6_amended (label : String) (data : List Nat) (h : data ≠ []) :
    handle_tcp_response label data
        = some (ascii ("ECHO:" ++ label ++ ":") ++ data) ∧
    udp_echo_response label data
        = some (ascii ("ECHO:" ++ label ++ ":") ++ data) ∧
    ∀ d : List Nat, handle_tcp_client_response d = ascii "ECHO:" ++ d := by
  refine ⟨?_, ?_, fun d => rfl⟩ <;>
    simp [handle_tcp_response, udp_echo_response, h]

theorem C6_amended_witness :
    handle_tcp_response "SSH" [0x07]
        = some (ascii ("ECHO:" ++ "SSH" ++ ":") ++ [0x07]) ∧
    udp_echo_response "SSH" [0x07]
        = some (ascii ("ECHO:" ++ "SSH" ++ ":") ++ [0x07]) ∧
    ∀ d : List Nat, handle_tcp_client_response d = ascii "ECHO:" ++ d :=
  C6_amended "SSH" [0x07] (by decide)

/-- Claim C7 counterexample: on a report where every probe failed, no
rule of any family matches and the analysis emits nothing at all -
in particular it does not emit the default line
"inconclusive — see raw results", which appears nowhere in the code. -/
theorem C7_counterexample :
    run_tests_analysis (List.replicate 11 ProbeStatus.no_response) = [] ∧
    ¬ ("inconclusive — see raw results"
        ∈ run_tests_analysis (List.replicate 11 ProbeStatus.no_response)) := by
  refine ⟨by decide, by decide⟩

/-- Claim C7 amended: each protocol family's if/elif chain emits at most
one diagnosis line, and when no rule of a family matches (its
protocol-correct probe failed, and for DNS its UDP probe failed too) the
family emits no line at all - there is no default diagnosis. -/
theorem C7_amended :
    ∀ tcpOk udpOk randOk sshOk sshRand httpsOk httpsRand : Bool,
      (dns_analysis tcpOk udpOk randOk).length ≤ 1 ∧
      (ssh_analysis sshOk sshRand).length ≤ 1 ∧
      (https_analysis httpsOk httpsRand).length ≤ 1 ∧
      dns_analysis false false randOk = [] ∧
      ssh_analysis false sshRand = [] ∧
      https_analysis false httpsRand = [] := by
  intro a b c d e f g
  cases a <;> cases b <;> cases c <;> cases d <;> cases e <;> cases f <;>
    cases g <;> decide

/-- Claim C8 counterexample: in the ClientHello built over an all-zero
32-byte random, the record length field (bytes 3-4) reads 64 while only
45 bytes follow it, and the handshake length field (bytes 6-8) reads 60
while only 41 bytes follow it - the length fields are fixed constants
inconsistent with the actual encoded sizes. -/
theorem C8_counterexample :
    (256 * (make_https_clienthello (List.replicate 32 0)).getD 3 0
        + (make_https_clienthello (List.replicate 32 0)).getD 4 0
      ≠ ((make_https_clienthello (List.replicate 32 0)).drop 5).length) ∧
    (65536 * (make_https_clienthello (List.replicate 32 0)).getD 6 0
        + 256 * (make_https_clienthello (List.replicate 32 0)).getD 7 0
        + (make_https_clienthello (List.replicate 32 0)).getD 8 0
      ≠ ((make_https_clienthello (List.replicate 32 0)).drop 9).length) := by
  refine ⟨by decide, by decide⟩

/-- Claim C8 amended: every ClientHello built over a 32-byte random has
the same fixed total size of 50 bytes and the same fixed 9-byte header
16 0301 0040 01 00003C, but its length fields are the constants 64
(record) and 60 (handshake) while the bytes following them number 45 and
41. -/
theorem C8_amended (r : List Nat) (h : r.length = 32) :
    (make_https_clienthello r).length = 50 ∧
    (make_https_clienthello r).take 9
      = [0x16, 0x03, 0x01, 0x00, 0x40, 0x01, 0x00, 0x00, 0x3c] ∧
    ((make_https_clienthello r).drop 5).length = 45 ∧
    ((make_https_clienthello r).drop 9).length = 41 := by
  have ht : (([0x01] ++ [0x00, 0x00, 0x3c] ++ [0x03, 0x03] ++ r
      ++ [0x00] ++ [0x00, 0x02] ++ [0x00, 0x2f] ++ [0x01] ++ [0x00]
        : List Nat)).take 64
      = [0x01] ++ [0x00, 0x00, 0x3c] ++ [0x03, 0x03] ++ r
      ++ [0x00] ++ [0x00, 0x02] ++ [0x00, 0x2f] ++ [0x01] ++ [0x00] := by
    apply List.take_of_length_le
    simp [h]
  refine ⟨?_, ?_, ?_, ?_⟩ <;>
    simp [make_https_clienthello, ht, h, List.take_append_eq_append_take]

theorem C8_amended_witness :
    (make_https_clienthello (List.replicate 32 0)).length = 50 ∧
    (make_https_clienthello (List.replicate 32 0)).take 9
      = [0x16, 0x03, 0x01, 0x00, 0x40, 0x01, 0x00, 0x00, 0x3c] ∧
    ((make_https_clienthello (List.replicate 32 0)).drop 5).length = 45 ∧
    ((make_https_clienthello (List.replicate 32 0)).drop 9).length = 41 :=
  C8_amended (List.replicate 32 0) (by decide)

/-- One grouping step changes the stats lookup only at the stepped key:
there it either creates a singleton bucket or adds the event's count,
bytes and client to the existing one. -/
theorem lookupStats_updateAssoc (stats : List (String × StatsBucket))
    (k : String) (e : ConnectionEvent) (key : String) :
    lookupStats (updateAssoc stats k e) key =
      if key = k then
        match lookupStats stats k with
        | none => some { count := 1, bytes := e.data_len, clients := {e.client} }
        | some b => some { count := b.count + 1, bytes := b.bytes + e.data_len,
                           clients := insert e.client b.clients }
      else lookupStats stats key := by
  induction stats with
  | nil =>
      by_cases hk : key = k
      · simp [updateAssoc, lookupStats, hk]
      · simp [updateAssoc, lookupStats, hk, Ne.symm hk]
  | cons p rest ih =>
      obtain ⟨k2, b⟩ := p
      by_cases h1 : k2 = k
      · subst h1
        by_cases hk : key = k2
        · simp [updateAssoc, lookupStats, hk]
        · simp [updateAssoc, lookupStats, hk, Ne.symm hk]
      · by_cases hk : key = k
        · subst hk
          simp [updateAssoc, lookupStats, h1, Ne.symm h1, ih]
        · by_cases h3 : k2 = key
          · subst h3
            simp [updateAssoc, lookupStats, h1, hk, Ne.symm hk]
          · simp [updateAssoc, lookupStats, h1, h3, hk, ih]

/-- Folding one more event into the stats dictionary. -/
theorem compute_stats_append (l : List ConnectionEvent) (e : ConnectionEvent) :
    compute_stats (l ++ [e]) = updateAssoc (compute_stats l) (statKey e) e := by
  simp [compute_stats, List.foldl_append]

/-- The aggregated stats dictionary looks up, at every key, exactly the
bucket recomputed directly from the log's events carrying that key
(and holds no entry for a key no event carries). -/
theorem lookup_compute_stats (log : List ConnectionEvent) (key : String) :
    lookupStats (compute_stats log) key =
      if log.filter (fun e => statKey e = key) = [] then none
      else some (bucket_of_events (log.filter (fun e => statKey e = key))) := by
  induction log using List.reverseRecOn with
  | nil => simp [compute_stats, lookupStats]
  | append_singleton l e ih =>
      rw [compute_stats_append, lookupStats_updateAssoc]
      by_cases hk : key = statKey e
      · subst hk
        rw [ih]
        rw [List.filter_append]
        simp only [List.filter_cons, List.filter_nil, decide_eq_true_eq]
        by_cases hf : l.filter (fun e2 => statKey e2 = statKey e) = [] <;>
          simp [hf, bucket_of_events, List.toFinset_append, Finset.union_comm,
                Finset.insert_eq]
      · have hne : ¬ statKey e = key := fun h2 => hk h2.symm
        rw [ih]
        rw [List.filter_append]
        simp [hk, hne]

/-- Each grouping step adds exactly one to the total of the bucket
counts. -/
theorem sum_counts_updateAssoc (stats : List (String × StatsBucket))
    (k : String) (e : ConnectionEvent) :
    ((updateAssoc stats k e).map (fun p => p.2.count)).sum
      = ((stats.map (fun p => p.2.count)).sum) + 1 := by
  induction stats with
  | nil => simp [updateAssoc]
  | cons p rest ih =>
      obtain ⟨k2, b⟩ := p
      by_cases h : k2 = k <;> simp [updateAssoc, h, ih] <;> omega

/-- The bucket counts of the aggregated stats total the log's length. -/
theorem sum_counts (log : List ConnectionEvent) :
    ((compute_stats log).map (fun p => p.2.count)).sum = log.length := by
  induction log using List.reverseRecOn with
  | nil => simp [compute_stats]
  | append_singleton l e ih =>
      rw [compute_stats_append, sum_counts_updateAssoc, ih]
      simp

/-- Claim C5: the stats mapping is a pure function of the logged event
sequence: any bucket the snapshot holds for a key has count the number
of logged events with that key, bytes the sum of their payload lengths,
and client set the set of their distinct client addresses - and the sum
of all bucket counts equals the log's length. -/
theorem C5_stats_consistency (log : List ConnectionEvent) (key : String)
    (b : StatsBucket)
    (h : lookupStats (compute_stats log) key = some b) :
    b.count = (log.filter (fun e => statKey e = key)).length ∧
    b.bytes = ((log.filter (fun e => statKey e = key)).map
        (fun e => e.data_len)).sum ∧
    b.clients = ((log.filter (fun e => statKey e = key)).map
        (fun e => e.client)).toFinset ∧
    ((compute_stats log).map (fun p => p.2.count)).sum = log.length := by
  rw [lookup_compute_stats] at h
  by_cases hf : log.filter (fun e => statKey e = key) = []
  · rw [hf] at h
    simp at h
  · rw [if_neg hf] at h
    have hb : b = bucket_of_events (log.filter (fun e => statKey e = key)) :=
      (Option.some_injective _ h).symm
    subst hb
    exact ⟨rfl, rfl, rfl, sum_counts log⟩

theorem C5_stats_consistency_witness :
    statsBucketExample.count
        = (statsLogExample.filter (fun e => statKey e = "TCP-TEST:5353")).length ∧
    statsBucketExample.bytes
        = ((statsLogExample.filter (fun e => statKey e = "TCP-TEST:5353")).map
            (fun e => e.data_len)).sum ∧
    statsBucketExample.clients
        = ((statsLogExample.filter (fun e => statKey e = "TCP-TEST:5353")).map
            (fun e => e.client)).toFinset ∧
    ((compute_stats statsLogExample).map (fun p => p.2.count)).sum
        = statsLogExample.length :=
  C5_stats_consistency statsLogExample "TCP-TEST:5353" statsBucketExample
    (by decide)
